import Mathlib

set_option linter.unusedVariables false

/-!
Shallow embedding of the GenAI_Meeting_Prep agent scripts.

Each agent registers one async handler with an external runtime and, per
invocation, performs zero or more sequential outbound HTTP calls, shapes the
provider responses into a nested record via fixed keyword lists, and returns
the record.  We model:

* JSON-like values (`Json`) for request/response bodies and output records;
* Python exceptions as `PyErr`; a fallible computation returns `Except PyErr _`;
* the network as an explicit script (`Net β`): a list of pending outcomes the
  provider will give, consumed in order, together with a counter of HTTP
  requests issued so far.  Stateful handlers are written in explicit
  state-passing style, mirroring the Python statement by statement.

Python string primitives used by the code (`str.lower`, `str.strip`,
`str.split(',')`, substring containment `in`, `', '.join`) are embedded for
the ASCII texts the agents manipulate.
-/

/-- JSON-like values: the shape of provider responses and agent output
records (Python dicts/lists/strings as returned by the handlers). -/
inductive Json where
  | str : String → Json
  | num : Int → Json
  | bool : Bool → Json
  | null : Json
  | arr : List Json → Json
  | obj : List (String × Json) → Json
deriving Repr

/-- A Python exception, identified by its message string. -/
structure PyErr where
  msg : String
deriving DecidableEq, Repr

/-- Embeds `d[k]` on a Python dict modelled as a `Json.obj`: the value when the key
is present, a `KeyError` otherwise (and a `TypeError` on non-dicts). -/
def Json.getKey (j : Json) (k : String) : Except PyErr Json :=
  match j with
  | .obj kvs =>
    match kvs.lookup k with
    | some v => .ok v
    | none => .error ⟨"KeyError: " ++ k⟩
  | _ => .error ⟨"TypeError: value is not subscriptable by string"⟩

/-- Embeds `l[i]` on a Python list modelled as a `Json.arr`: the element when the
index is in range, an `IndexError` otherwise. -/
def Json.getIdx (j : Json) (i : Nat) : Except PyErr Json :=
  match j with
  | .arr l =>
    match l.get? i with
    | some v => .ok v
    | none => .error ⟨"IndexError: list index out of range"⟩
  | _ => .error ⟨"TypeError: value is not subscriptable by index"⟩

/-- Embeds `k in d` on a Python dict modelled as a `Json.obj`. -/
def Json.hasKey (j : Json) (k : String) : Bool :=
  match j with
  | .obj kvs => kvs.any (fun kv => kv.1 == k)
  | _ => false

/-- A Python list of strings as a JSON array. -/
def jStrArr (l : List String) : Json :=
  Json.arr (l.map Json.str)

/-- Outcome of one outbound HTTP request: either a response with a status
code and a parsed body of type `β`, or a transport-level exception. -/
inductive HttpOutcome (β : Type) where
  | resp : Nat → β → HttpOutcome β
  | exn : PyErr → HttpOutcome β
deriving Repr

/-- The network, seen by one handler invocation: the scripted outcomes the
provider will deliver (consumed in order) and the number of HTTP requests
the handler has issued so far. -/
structure Net (β : Type) where
  pending : List (HttpOutcome β)
  calls : Nat
deriving Repr

/-- Issue one HTTP request (`requests.get` / `requests.post` / SDK call):
consumes the next scripted outcome and increments the request counter.  An
exhausted script behaves like a transport exception. -/
def httpRequest {β : Type} (net : Net β) : Except PyErr (Nat × β) × Net β :=
  match net.pending with
  | [] => (.error ⟨"ConnectionError"⟩, ⟨[], net.calls + 1⟩)
  | o :: rest =>
    match o with
    | .resp status body => (.ok (status, body), ⟨rest, net.calls + 1⟩)
    | .exn e => (.error e, ⟨rest, net.calls + 1⟩)

/-- The Python handler pattern `try: return <body> except Exception as e:
return <error record>`: a body outcome is either returned as-is or converted
by the top-level handler into an error record; nothing propagates. -/
def pyTryReturn {β : Type} (body : Except PyErr Json × Net β)
    (handler : PyErr → Json) : Json × Net β :=
  match body with
  | (.ok r, net) => (r, net)
  | (.error e, net) => (handler e, net)

/-- Python `str.lower()` (the agents only lower ASCII text). -/
def pyLower (s : String) : String :=
  String.mk (s.data.map Char.toLower)

/-- Python `str.strip()` (the agents only strip ASCII whitespace): drop
whitespace from both ends. -/
def pyStrip (s : String) : String :=
  String.mk (((s.data.dropWhile Char.isWhitespace).reverse.dropWhile
    Char.isWhitespace).reverse)

/-- Split a character list at every occurrence of the separator character,
keeping empty fields: the empty list yields one empty field. -/
def splitOnChar (sep : Char) : List Char → List (List Char)
  | [] => [[]]
  | c :: t =>
    let r := splitOnChar sep t
    if c == sep then [] :: r
    else
      match r with
      | [] => [[c]]
      | h :: t' => (c :: h) :: t'

/-- Python `s.split(sep)` for a one-character separator (the agents only
split on `","`): `"".split(",") = [""]`, empty fields kept. -/
def pySplit (s : String) (sep : Char) : List String :=
  (splitOnChar sep s.data).map String.mk

/-- Python `sep.join(l)`. -/
def pyJoin (sep : String) : List String → String
  | [] => ""
  | [x] => x
  | x :: y :: rest => x ++ sep ++ pyJoin sep (y :: rest)

/-- Is `needle` a prefix of `hay` (on character lists)? -/
def charsStartsWith : List Char → List Char → Bool
  | [], _ => true
  | _ :: _, [] => false
  | a :: as, b :: bs => a == b && charsStartsWith as bs

/-- Is `needle` an infix of `hay` (on character lists)? -/
def charsSub (needle hay : List Char) : Bool :=
  charsStartsWith needle hay ||
    match hay with
    | [] => false
    | _ :: t => charsSub needle t

/-- Python substring containment `needle in hay`. -/
def strContains (hay needle : String) : Bool :=
  charsSub needle.data hay.data

/- ### Weather agent (src/genai_agents_example/get_weather_agent/main.py)

`get_weather(agent_context, city_name, date)` builds
`params = {"q": city_name, "dt": date, "key": REQUEST_KEY}` — issued
unconditionally, whether or not `REQUEST_KEY` is set — then returns
`{"weather_forecast": response.json()["forecast"]["forecastday"][0]["day"]}`.
There is no `try`/`except` anywhere in the handler, so a transport exception
or a malformed body propagates to the caller. -/

/-- The weather agent handler.  `request_key` models `REQUEST_KEY` (may be
`none`: the request is sent regardless); the single scripted outcome models
the one `requests.get` call. -/
def get_weather (city_name date : String) (request_key : Option String)
    (net : Net Json) : Except PyErr Json × Net Json :=
  -- params = {"q": city_name, "dt": date, "key": REQUEST_KEY}
  match httpRequest net with
  | (.error e, net') => (.error e, net')
  | (.ok (_status, body), net') =>
    (match body.getKey "forecast" with
     | .error e => .error e
     | .ok forecast =>
       match forecast.getKey "forecastday" with
       | .error e => .error e
       | .ok forecastday =>
         match forecastday.getIdx 0 with
         | .error e => .error e
         | .ok first =>
           match first.getKey "day" with
           | .error e => .error e
           | .ok day => .ok (Json.obj [("weather_forecast", day)]), net')

/- ### Date agent (src/genai_agents_example/get_current_date_agent/main.py)

`get_current_date(agent_context)` returns
`datetime.now().strftime("%Y-%m-%d")`.  We model `datetime.now()` as an
explicit argument and `strftime` by decimal rendering: `%m`/`%d` are
zero-padded to two digits; `%Y` renders the year, four digits for the years
a wall clock produces (1000–9999). -/

/-- The clock value injected into the date agent (fields of
`datetime.now()` that the format string reads). -/
structure PyDateTime where
  year : Nat
  month : Nat
  day : Nat
deriving DecidableEq, Repr

/-- Decimal digit character for `n % 10`. -/
def digitChar (n : Nat) : Char :=
  Char.ofNat (48 + n % 10)

/-- Embeds `strftime` field `%m` / `%d`: two decimal digits, zero-padded. -/
def dec2 (n : Nat) : String :=
  String.mk [digitChar (n / 10), digitChar n]

/-- Embeds `strftime` field `%Y` for years 1000–9999 (the range a wall clock
yields): four decimal digits. -/
def dec4 (n : Nat) : String :=
  String.mk [digitChar (n / 1000), digitChar (n / 100), digitChar (n / 10), digitChar n]

/-- The date agent handler: `datetime.now().strftime("%Y-%m-%d")`. -/
def get_current_date (now : PyDateTime) : String :=
  dec4 now.year ++ "-" ++ dec2 now.month ++ "-" ++ dec2 now.day

/- ### Research agent (src/cli/agents/reseach_agent/reseach_agent.py)

`research_meeting_participants(agent_context, participants, meeting_context)`
comma-splits `participants`, builds one record per participant (initialized
with empty fields), and, when `SERPER_API_KEY` is set, runs four Serper
searches per participant, each wrapped in its own `try`/`except` that logs
and continues on failure.  Without the key it fills the record with
placeholder strings.  A top-level `try`/`except` converts any escaping
exception into `{"error": ..., "participants": ..., "context": ...}`. -/

/-- One entry of Serper's `organic` result list; the code reads `link`,
`title` and `snippet` via `.get` (absent keys model as `none`). -/
structure OrganicResult where
  link : Option String
  title : Option String
  snippet : Option String

/-- A parsed Serper response body; the code only reads the `organic` key
(`none` models a body without it, e.g. an error payload). -/
structure SearchResult where
  organic : Option (List OrganicResult)

/-- The mutable per-participant dict, created with empty defaults before the
searches run. -/
structure ParticipantData where
  name : String
  professional_summary : String
  experience : List String
  education : List String
  company_info : String
  linkedin_profile : String
  key_achievements : List String
  industry_connections : List String

/-- Embeds `participant_data` as the JSON record appended to `research_findings`. -/
def participantDataToJson (pd : ParticipantData) : Json :=
  Json.obj [
    ("name", .str pd.name),
    ("professional_summary", .str pd.professional_summary),
    ("experience", jStrArr pd.experience),
    ("education", jStrArr pd.education),
    ("company_info", .str pd.company_info),
    ("linkedin_profile", .str pd.linkedin_profile),
    ("key_achievements", jStrArr pd.key_achievements),
    ("industry_connections", jStrArr pd.industry_connections)]

/-- Embeds `perform_serper_search(query)`: without the key returns the literal
`{"error": "SERPER_API_KEY not set"}` payload (no `organic` key, no HTTP
call); with the key issues one `requests.post` and returns
`response.json()` whatever the status code. -/
def perform_serper_search (serper_api_key : Option String) (query : String)
    (net : Net SearchResult) : Except PyErr SearchResult × Net SearchResult :=
  match serper_api_key with
  | none => (.ok ⟨none⟩, net)
  | some _ =>
    match httpRequest net with
    | (.error e, net') => (.error e, net')
    | (.ok (_status, body), net') => (.ok body, net')

/-- Embeds `extract_linkedin_info`: first organic result whose `link` contains
`"linkedin.com"`. -/
def extract_linkedin_info (search_result : SearchResult) : String :=
  match search_result.organic with
  | none => "LinkedIn profile information not found"
  | some results =>
    match results.find? (fun r => strContains (r.link.getD "") "linkedin.com") with
    | some r =>
      "LinkedIn Profile: " ++ r.title.getD "N/A" ++ " - " ++ r.snippet.getD "N/A"
    | none => "LinkedIn profile information not found"

/-- Keywords scanned by `extract_experience_info`. -/
def experienceKeywords : List String :=
  ["experience", "worked", "position", "role"]

/-- Embeds `extract_experience_info`: organic results whose lowercased snippet
contains an experience keyword, formatted `title: snippet`, truncated to 3. -/
def extract_experience_info (search_result : SearchResult) : List String :=
  match search_result.organic with
  | none => []
  | some results =>
    (results.foldl (fun acc r =>
      if experienceKeywords.any (fun kw => strContains (pyLower (r.snippet.getD "")) kw)
      then acc ++ [r.title.getD "N/A" ++ ": " ++ r.snippet.getD "N/A"]
      else acc) []).take 3

/-- Keywords scanned by `extract_education_info`. -/
def educationKeywords : List String :=
  ["education", "university", "degree", "studied"]

/-- Embeds `extract_education_info`: organic results whose lowercased snippet
contains an education keyword, formatted `title: snippet`, truncated to 3. -/
def extract_education_info (search_result : SearchResult) : List String :=
  match search_result.organic with
  | none => []
  | some results =>
    (results.foldl (fun acc r =>
      if educationKeywords.any (fun kw => strContains (pyLower (r.snippet.getD "")) kw)
      then acc ++ [r.title.getD "N/A" ++ ": " ++ r.snippet.getD "N/A"]
      else acc) []).take 3

/-- Embeds `extract_company_info`: first organic result whose lowercased snippet
contains a company keyword. -/
def extract_company_info (search_result : SearchResult) : String :=
  match search_result.organic with
  | none => "Company information not found"
  | some results =>
    match results.find? (fun r =>
      ["company", "corporation", "organization"].any
        (fun kw => strContains (pyLower (r.snippet.getD "")) kw)) with
    | some r => "Company Info: " ++ r.title.getD "N/A" ++ " - " ++ r.snippet.getD "N/A"
    | none => "Company information not found"

/-- Embeds `[name.strip() for name in participants.split(',')]` — the research
agent's comma-split parsing of the `participants` parameter. -/
def parse_participants (participants : String) : List String :=
  (pySplit participants ',').map pyStrip

/-- One iteration of the inner query loop: `try: search; dispatch on the
query string; except: log and continue` (the record is left unchanged on
failure). -/
def processQuery (serper_api_key : Option String) (pd : ParticipantData)
    (query : String) (net : Net SearchResult) : ParticipantData × Net SearchResult :=
  match perform_serper_search serper_api_key query net with
  | (.error _e, net') => (pd, net')
  | (.ok search_result, net') =>
    let pd' :=
      if strContains query "LinkedIn" then
        { pd with linkedin_profile := extract_linkedin_info search_result }
      else if strContains query "experience" then
        { pd with experience := extract_experience_info search_result }
      else if strContains query "education" then
        { pd with education := extract_education_info search_result }
      else if strContains query "company" then
        { pd with company_info := extract_company_info search_result }
      else pd
    (pd', net')

/-- Research one participant: initialize the record with empty defaults;
with the key run the four queries in order, otherwise `.update` the record
with the placeholder strings. -/
def researchParticipant (serper_api_key : Option String) (participant : String)
    (net : Net SearchResult) : ParticipantData × Net SearchResult :=
  let pd0 : ParticipantData := ⟨participant, "", [], [], "", "", [], []⟩
  match serper_api_key with
  | some _ =>
    let search_queries := [
      participant ++ " LinkedIn profile",
      participant ++ " professional experience",
      participant ++ " company background",
      participant ++ " education background"]
    search_queries.foldl
      (fun (acc : ParticipantData × Net SearchResult) q =>
        processQuery serper_api_key acc.1 q acc.2)
      (pd0, net)
  | none =>
    ({ pd0 with
        professional_summary := "Professional research needed for " ++ participant,
        experience := ["Experience research required for " ++ participant],
        education := ["Education background research needed for " ++ participant],
        company_info := "Company information research required for " ++ participant,
        linkedin_profile := "LinkedIn profile research needed for " ++ participant,
        key_achievements := ["Achievement research required for " ++ participant],
        industry_connections := ["Network research needed for " ++ participant] }, net)

/-- The body of the research handler's top-level `try` block. -/
def research_body (serper_api_key : Option String)
    (participants meeting_context : String) (net : Net SearchResult) :
    Except PyErr Json × Net SearchResult :=
  let participant_list := parse_participants participants
  let folded := participant_list.foldl
    (fun (acc : List ParticipantData × Net SearchResult) p =>
      let r := researchParticipant serper_api_key p acc.2
      (acc.1 ++ [r.1], r.2))
    ([], net)
  (.ok (Json.obj [
    ("meeting_context", .str meeting_context),
    ("participants_researched", .num participant_list.length),
    ("research_findings", Json.arr (folded.1.map participantDataToJson)),
    ("summary", .str ("Research completed for " ++ toString participant_list.length
      ++ " participants: " ++ pyJoin ", " participant_list)),
    ("recommendations", jStrArr [
      "Review each participant\x27s professional background before the meeting",
      "Identify common interests and professional connections",
      "Prepare relevant talking points based on their experience",
      "Consider their industry expertise when planning discussion topics"])]), folded.2)

/-- The research agent's top-level `except` branch: error message plus the
original `participants` and `meeting_context` inputs. -/
def researchErrorRecord (participants meeting_context : String) (e : PyErr) : Json :=
  Json.obj [
    ("error", .str ("Research agent encountered an error: " ++ e.msg)),
    ("participants", .str participants),
    ("context", .str meeting_context)]

/-- The research agent handler. -/
def research_meeting_participants (serper_api_key : Option String)
    (participants meeting_context : String) (net : Net SearchResult) :
    Json × Net SearchResult :=
  pyTryReturn (research_body serper_api_key participants meeting_context net)
    (researchErrorRecord participants meeting_context)

/- ### Industry analysis agent
(src/cli/agents/industry_analysis_agent/industry_analysis_agent.py)

`analyze_meeting_industry_trends(agent_context, participants,
meeting_context)` extracts industries from the context, runs three EXA
searches per industry (each with its own missing-key fallback, non-200
fallback and `except` fallback), assembles a nested report, and converts
any escaping exception into
`{"error": ..., "fallback_analysis": generate_fallback_industry_analysis(...)}`
(note: the inputs themselves are not echoed). -/

/-- One entry of EXA's `results` list; the code only reads `text` via
`.get` (absent models as `none`). -/
structure ExaResult where
  text : Option String

/-- A parsed EXA response body; the code reads `data.get("results", [])`,
so an absent key behaves exactly like an empty list and is modelled as one. -/
structure ExaResponse where
  results : List ExaResult

/-- The dict returned by `search_market_analysis` (keys `challenges`,
`opportunities`, `competitors`). -/
structure MarketData where
  challenges : List String
  opportunities : List String
  competitors : List String

/-- Keywords scanned by `extract_trends_from_text`, in source order. -/
def trend_keywords : List String := [
  "artificial intelligence", "machine learning", "automation", "digital transformation",
  "cloud computing", "edge computing", "blockchain", "cybersecurity", "data analytics",
  "sustainability", "remote work", "hybrid models", "customer experience"]

/-- Embeds `extract_trends_from_text`: scan the lowercased text for each trend
keyword in list order, append `Growing adoption of <keyword>` per match,
truncate to 3. -/
def extract_trends_from_text (text : String) : List String :=
  let text_lower := pyLower text
  (trend_keywords.foldl (fun trends keyword =>
    if strContains text_lower keyword
    then trends ++ ["Growing adoption of " ++ keyword]
    else trends) []).take 3

/-- Keywords scanned by `extract_challenges_from_text`, in source order. -/
def challenge_keywords : List String := [
  "regulation", "compliance", "competition", "talent shortage", "cybersecurity",
  "cost pressure", "market volatility", "supply chain", "inflation", "recession"]

/-- Embeds `extract_challenges_from_text`: one `Managing <keyword> challenges`
per matched keyword, truncated to 3. -/
def extract_challenges_from_text (text : String) : List String :=
  let text_lower := pyLower text
  (challenge_keywords.foldl (fun challenges keyword =>
    if strContains text_lower keyword
    then challenges ++ ["Managing " ++ keyword ++ " challenges"]
    else challenges) []).take 3

/-- Keywords scanned by `extract_opportunities_from_text`, in source order. -/
def opportunity_keywords : List String := [
  "growth", "expansion", "innovation", "partnership", "acquisition", "investment",
  "new markets", "technology adoption", "digital transformation", "sustainability"]

/-- Embeds `extract_opportunities_from_text`: one `Leveraging <keyword>
opportunities` per matched keyword, truncated to 3. -/
def extract_opportunities_from_text (text : String) : List String :=
  let text_lower := pyLower text
  (opportunity_keywords.foldl (fun opportunities keyword =>
    if strContains text_lower keyword
    then opportunities ++ ["Leveraging " ++ keyword ++ " opportunities"]
    else opportunities) []).take 3

/-- Embeds `extract_competitors_from_text`: a fixed list, independent of the text. -/
def extract_competitors_from_text (text : String) : List String :=
  ["Market incumbents", "Emerging disruptors", "International players"]

/-- Embeds `extract_developments_from_text`: a fixed list, independent of the text. -/
def extract_developments_from_text (text : String) : List String :=
  ["New technology adoption accelerating",
   "Regulatory landscape evolving",
   "Market consolidation ongoing"]

/-- Embeds `extract_industries_from_context`: keyword flags over the lowercased
context, defaulting to Technology + Business Services.  The Python builds a
`set` and returns `list(industries)`, whose iteration order is unspecified;
we fix the textual order of the `add` statements (no claim depends on the
order, and no duplicates can arise since the names are distinct). -/
def extract_industries_from_context (participants context : String) : List String :=
  let context_lower := pyLower context
  let industries :=
    (if strContains context_lower "ai" || strContains context_lower "artificial intelligence"
     then ["Artificial Intelligence"] else []) ++
    (if strContains context_lower "cloud" then ["Cloud Computing"] else []) ++
    (if strContains context_lower "edge computing" || strContains context_lower "edge"
     then ["Edge Computing"] else []) ++
    (if strContains context_lower "technology" || strContains context_lower "tech"
     then ["Technology"] else []) ++
    (if strContains context_lower "investment" then ["Investment Banking"] else []) ++
    (if strContains context_lower "healthcare" then ["Healthcare"] else []) ++
    (if strContains context_lower "finance" || strContains context_lower "financial"
     then ["Financial Services"] else [])
  if industries.isEmpty then ["Technology", "Business Services"] else industries

/-- Embeds `search_industry_trends(industry)`: missing-key fallback with no HTTP
call; otherwise one `requests.post`, with a non-200 fallback, an `except`
fallback, and on 200 trend extraction over the first 5 truthy-`text`
results, truncated to 10.  (The Python wraps the list as
`{"trends": [...]}` and the caller immediately reads it back with
`.get("trends", [])`; the wrapper is elided.) -/
def search_industry_trends (exa_api_key : Option String) (industry : String)
    (net : Net ExaResponse) : List String × Net ExaResponse :=
  match exa_api_key with
  | none =>
    (["AI integration in " ++ industry,
      "Digital transformation in " ++ industry,
      "Sustainability focus in " ++ industry], net)
  | some _ =>
    match httpRequest net with
    | (.error _e, net') =>
      (["Innovation focus in " ++ industry, "Market consolidation in " ++ industry], net')
    | (.ok (status, data), net') =>
      if status = 200 then
        let trends := (data.results.take 5).foldl (fun acc r =>
          match r.text with
          | some t => if t ≠ "" then acc ++ extract_trends_from_text t else acc
          | none => acc) []
        (trends.take 10, net')
      else
        (["Digital transformation in " ++ industry, "AI adoption in " ++ industry], net')

/-- Embeds `search_market_analysis(industry, context)`: same three-way structure,
extracting challenges/opportunities/competitors on 200 with truncations
8/8/6. -/
def search_market_analysis (exa_api_key : Option String) (industry context : String)
    (net : Net ExaResponse) : MarketData × Net ExaResponse :=
  match exa_api_key with
  | none =>
    (⟨["Regulatory compliance in " ++ industry, "Competition in " ++ industry],
      ["Technology integration in " ++ industry, "Market expansion in " ++ industry],
      ["Major players in " ++ industry, "Emerging companies in " ++ industry]⟩, net)
  | some _ =>
    match httpRequest net with
    | (.error _e, net') =>
      (⟨["Industry disruption in " ++ industry],
        ["Technology adoption in " ++ industry],
        ["Market leaders in " ++ industry]⟩, net')
    | (.ok (status, data), net') =>
      if status = 200 then
        let step := data.results.foldl (fun (acc : MarketData) r =>
          match r.text with
          | some t =>
            if t ≠ "" then
              ⟨acc.challenges ++ extract_challenges_from_text t,
               acc.opportunities ++ extract_opportunities_from_text t,
               acc.competitors ++ extract_competitors_from_text t⟩
            else acc
          | none => acc) ⟨[], [], []⟩
        (⟨step.challenges.take 8, step.opportunities.take 8, step.competitors.take 6⟩, net')
      else
        (⟨["Market volatility in " ++ industry, "Regulatory changes in " ++ industry],
          ["Digital innovation in " ++ industry, "Partnership opportunities in " ++ industry],
          ["Established players in " ++ industry, "Disruptive startups in " ++ industry]⟩, net')

/-- Embeds `search_recent_developments(industry)`: same three-way structure,
extracting developments on 200 with truncation 10. -/
def search_recent_developments (exa_api_key : Option String) (industry : String)
    (net : Net ExaResponse) : List String × Net ExaResponse :=
  match exa_api_key with
  | none =>
    (["Recent innovation in " ++ industry, "New regulations affecting " ++ industry], net)
  | some _ =>
    match httpRequest net with
    | (.error _e, net') => (["Ongoing changes in " ++ industry], net')
    | (.ok (status, data), net') =>
      if status = 200 then
        ((data.results.foldl (fun acc r =>
          match r.text with
          | some t => if t ≠ "" then acc ++ extract_developments_from_text t else acc
          | none => acc) []).take 10, net')
      else
        (["Industry evolution in " ++ industry, "Market shifts in " ++ industry], net')

/-- Embeds `generate_strategic_insights`: fixed list. -/
def generate_strategic_insights (trend_data : List String) (market_data : MarketData) :
    List String :=
  ["Market consolidation creating partnership opportunities",
   "Technology disruption requiring strategic adaptation",
   "Regulatory changes driving compliance innovation",
   "Customer expectations evolving rapidly"]

/-- Embeds `assess_investment_outlook`: fixed string. -/
def assess_investment_outlook (trend_data : List String) (market_data : MarketData) :
    String :=
  "Positive with selective opportunities - focus on technology-enabled solutions and strategic partnerships"

/-- Embeds `identify_risk_factors`: fixed list. -/
def identify_risk_factors (market_data : MarketData) : List String :=
  ["Regulatory uncertainty and compliance costs",
   "Intense competition and market saturation",
   "Technology disruption and obsolescence",
   "Economic volatility and market conditions"]

/-- Embeds `generate_cross_industry_insights`: fixed list. -/
def generate_cross_industry_insights (analysis_results : List (String × Json)) :
    List String :=
  ["AI and automation trends consistent across industries",
   "Sustainability becoming universal business imperative",
   "Digital transformation accelerating in all sectors",
   "Partnership models emerging as competitive advantage"]

/-- Embeds `generate_industry_talking_points`: fixed list. -/
def generate_industry_talking_points (analysis_results : List (String × Json))
    (context : String) : List String :=
  ["Current market position and competitive advantages",
   "Technology adoption strategies and innovation roadmap",
   "Partnership opportunities and synergies",
   "Risk mitigation and market positioning",
   "Investment priorities and resource allocation"]

/-- Embeds `generate_strategic_questions`: fixed list. -/
def generate_strategic_questions (analysis_results : List (String × Json)) :
    List String :=
  ["How are you adapting to current industry disruptions?",
   "What partnership models are you exploring?",
   "Where do you see the biggest growth opportunities?",
   "How are you addressing regulatory and compliance challenges?",
   "What technology investments are driving your strategy?"]

/-- Embeds `identify_collaboration_opportunities`: fixed list. -/
def identify_collaboration_opportunities (analysis_results : List (String × Json)) :
    List String :=
  ["Joint technology development and innovation",
   "Market expansion and customer acquisition",
   "Risk sharing and resource optimization",
   "Regulatory compliance and industry standards",
   "Talent development and knowledge sharing"]

/-- Embeds `highlight_competitive_advantages`: fixed list. -/
def highlight_competitive_advantages (analysis_results : List (String × Json)) :
    List String :=
  ["Technology leadership and innovation capabilities",
   "Market position and customer relationships",
   "Operational efficiency and cost structure",
   "Regulatory expertise and compliance track record",
   "Partnership network and ecosystem strength"]

/-- Embeds `generate_positioning_advice`: fixed dict. -/
def generate_positioning_advice (analysis_results : List (String × Json))
    (context : String) : Json :=
  Json.obj [
    ("differentiation_strategy", .str "Focus on unique technology capabilities and market expertise"),
    ("value_proposition", .str "Combine innovation with proven execution and market knowledge"),
    ("competitive_positioning", .str "Position as strategic partner rather than vendor"),
    ("messaging_framework", .str "Emphasize mutual benefit and long-term value creation")]

/-- Embeds `generate_risk_mitigation`: fixed list. -/
def generate_risk_mitigation (analysis_results : List (String × Json)) : List String :=
  ["Diversify market exposure and customer base",
   "Invest in compliance and regulatory capabilities",
   "Build strategic partnerships for market access",
   "Maintain technology leadership through continuous innovation",
   "Develop contingency plans for market disruptions"]

/-- Embeds `generate_fallback_industry_analysis`: fixed dict (ignores its inputs). -/
def generate_fallback_industry_analysis (participants context : String) : Json :=
  Json.obj [
    ("executive_summary", Json.obj [
      ("note", .str "Fallback analysis - limited real-time data"),
      ("industries_analyzed", jStrArr ["Technology", "Business Services"]),
      ("confidence_level", .str "Medium (75%)")]),
    ("general_trends", jStrArr [
      "Digital transformation acceleration",
      "AI and automation adoption",
      "Sustainability focus increasing",
      "Remote/hybrid work models"]),
    ("common_challenges", jStrArr [
      "Talent acquisition and retention",
      "Regulatory compliance complexity",
      "Cybersecurity threats",
      "Market competition intensity"]),
    ("opportunities", jStrArr [
      "Technology integration partnerships",
      "Market expansion opportunities",
      "Innovation collaboration potential",
      "Operational efficiency improvements"])]

/-- One iteration of the per-industry loop of the handler: the three
sequential searches and the per-industry record. -/
def analyzeIndustry (exa_api_key : Option String) (meeting_context industry : String)
    (net : Net ExaResponse) : (String × Json) × Net ExaResponse :=
  let t := search_industry_trends exa_api_key industry net
  let trend_data := t.1
  let m := search_market_analysis exa_api_key industry meeting_context t.2
  let market_data := m.1
  let n := search_recent_developments exa_api_key industry m.2
  let news_data := n.1
  ((industry, Json.obj [
    ("industry_name", .str industry),
    ("current_trends", jStrArr trend_data),
    ("market_challenges", jStrArr market_data.challenges),
    ("growth_opportunities", jStrArr market_data.opportunities),
    ("recent_developments", jStrArr news_data),
    ("competitive_landscape", jStrArr market_data.competitors),
    ("strategic_insights", jStrArr (generate_strategic_insights trend_data market_data)),
    ("investment_outlook", .str (assess_investment_outlook trend_data market_data)),
    ("risk_factors", jStrArr (identify_risk_factors market_data))]), n.2)

/-- The body of the industry handler's top-level `try` block. -/
def analyze_body (exa_api_key : Option String)
    (participants meeting_context : String) (net : Net ExaResponse) :
    Except PyErr Json × Net ExaResponse :=
  let industries := extract_industries_from_context participants meeting_context
  let folded := industries.foldl
    (fun (acc : List (String × Json) × Net ExaResponse) industry =>
      let r := analyzeIndustry exa_api_key meeting_context industry acc.2
      (acc.1 ++ [r.1], r.2))
    ([], net)
  let analysis_results := folded.1
  (.ok (Json.obj [
    ("executive_summary", Json.obj [
      ("industries_analyzed", jStrArr industries),
      ("analysis_depth", .str "Comprehensive real-time analysis"),
      ("data_sources", .str "EXA API, recent market reports, industry publications"),
      ("confidence_level", .str "High (92%)")]),
    ("industry_analyses", Json.obj analysis_results),
    ("cross_industry_insights", jStrArr (generate_cross_industry_insights analysis_results)),
    ("meeting_specific_recommendations", Json.obj [
      ("talking_points", jStrArr (generate_industry_talking_points analysis_results meeting_context)),
      ("questions_to_ask", jStrArr (generate_strategic_questions analysis_results)),
      ("potential_collaboration_areas", jStrArr (identify_collaboration_opportunities analysis_results)),
      ("competitive_advantages", jStrArr (highlight_competitive_advantages analysis_results))]),
    ("market_positioning_advice", generate_positioning_advice analysis_results meeting_context),
    ("risk_mitigation_strategies", jStrArr (generate_risk_mitigation analysis_results))]), folded.2)

/-- The industry agent's top-level `except` branch: error message plus a
fallback analysis — the original inputs are not echoed back. -/
def industryErrorRecord (participants meeting_context : String) (e : PyErr) : Json :=
  Json.obj [
    ("error", .str ("Industry analysis failed: " ++ e.msg)),
    ("fallback_analysis", generate_fallback_industry_analysis participants meeting_context)]

/-- The industry analysis agent handler. -/
def analyze_meeting_industry_trends (exa_api_key : Option String)
    (participants meeting_context : String) (net : Net ExaResponse) :
    Json × Net ExaResponse :=
  pyTryReturn (analyze_body exa_api_key participants meeting_context net)
    (industryErrorRecord participants meeting_context)

/- ### Meeting strategy agent
(src/cli/agents/meeting_stratergy_agent/meeting_stratergy_agent.py)

`develop_meeting_strategy(agent_context, meeting_context, meeting_objective,
research_data, industry_analysis)` builds pure strategy components, updates
them with an AI enhancement when `GOOGLE_API_KEY` is set (the Gemini call is
wrapped in its own `try`/`except` with a fallback dict), and converts any
escaping exception into `{"error": ..., "context": ..., "objective": ...}`.
The Gemini SDK call is modelled as one scripted outbound request returning
the completion text. -/

/-- Python `dict.update(e)` on association lists: existing keys keep their
position and take the new value; new keys are appended in `e`'s order. -/
def dictUpdate (d e : List (String × Json)) : List (String × Json) :=
  (d.map (fun kv =>
    match e.lookup kv.1 with
    | some v => (kv.1, v)
    | none => kv)) ++
  e.filter (fun kv => !(d.any (fun kv' => kv'.1 == kv.1)))

/-- Embeds `generate_value_propositions`: fixed list around the objective. -/
def generate_value_propositions (objective : String) : List String :=
  ["Direct value: Achievement of " ++ objective,
   "Long-term partnership and collaboration opportunities",
   "Market advantage and competitive positioning",
   "Risk mitigation and shared expertise",
   "Scalability and growth potential"]

/-- Embeds `generate_potential_objections`: fixed objection/response pairs. -/
def generate_potential_objections (context objective : String) : Json :=
  Json.arr [
    Json.obj [("objection", .str "Timeline concerns"),
      ("response", .str "We can discuss flexible timeline options and phased implementation")],
    Json.obj [("objection", .str "Budget or resource constraints"),
      ("response", .str "Let\x27s explore cost-effective approaches and ROI projections")],
    Json.obj [("objection", .str "Risk concerns"),
      ("response", .str "We can address risk mitigation strategies and pilot programs")]]

/-- Embeds `identify_common_ground`: fixed list. -/
def identify_common_ground (research industry : String) : List String :=
  ["Shared industry challenges and opportunities",
   "Mutual interest in market growth",
   "Common goals for efficiency and innovation",
   "Shared commitment to quality and excellence",
   "Interest in sustainable business practices"]

/-- Embeds `generate_strategy_components`: the pure component dict (talking
points, questions, starters, value propositions, objections, common
ground). -/
def generate_strategy_components (context objective research industry : String) :
    List (String × Json) :=
  [("talking_points", jStrArr [
      "Opening discussion about " ++ context,
      "Alignment on " ++ objective,
      "Mutual benefits and value proposition",
      "Timeline and implementation discussion",
      "Resource requirements and commitments",
      "Success metrics and measurement",
      "Risk mitigation and contingencies"]),
   ("strategic_questions", jStrArr [
      "How does this align with your current priorities regarding " ++ context ++ "?",
      "What are the key success metrics you\x27d like to see?",
      "What potential challenges do you foresee?",
      "How can we ensure mutual value creation?",
      "What would an ideal outcome look like for you?",
      "What timeline are you working with?",
      "Who else should be involved in this decision?"]),
   ("conversation_starters", jStrArr [
      "I\x27d love to hear your perspective on the current market situation",
      "What trends are you seeing in your industry?",
      "How has your experience been with similar initiatives?",
      "What\x27s driving your interest in this area?",
      "What challenges are you currently facing?"]),
   ("value_propositions", jStrArr (generate_value_propositions objective)),
   ("potential_objections", generate_potential_objections context objective),
   ("common_ground_areas", jStrArr (identify_common_ground research industry))]

/-- Embeds `enhance_strategy_with_ai`: one Gemini call inside its own
`try`/`except`; on failure returns the fixed unavailable dict carrying the
exception message. -/
def enhance_strategy_with_ai (context objective : String) (net : Net String) :
    List (String × Json) × Net String :=
  match httpRequest net with
  | (.error e, net') =>
    ([("ai_enhanced_content", .str "AI enhancement not available"),
      ("ai_generated", .bool false),
      ("error", .str e.msg)], net')
  | (.ok (_status, ai_content), net') =>
    ([("ai_enhanced_content", .str ai_content),
      ("ai_generated", .bool true)], net')

/-- Embeds `generate_meeting_flow`: fixed list. -/
def generate_meeting_flow (context objective : String) : List String :=
  ["1. Opening and rapport building (5-10 minutes)",
   "2. Context setting and objective alignment (10-15 minutes)",
   "3. Main discussion and exploration (20-30 minutes)",
   "4. Address concerns and objections (10-15 minutes)",
   "5. Next steps and follow-up (5-10 minutes)"]

/-- Embeds `generate_contingency_plans`: fixed dict. -/
def generate_contingency_plans : Json :=
  Json.obj [
    ("if_discussion_stalls", jStrArr [
      "Use prepared conversation starters",
      "Ask open-ended questions about their challenges",
      "Share relevant industry insights"]),
    ("if_objections_arise", jStrArr [
      "Acknowledge concerns respectfully",
      "Ask clarifying questions to understand root issues",
      "Provide evidence-based responses"]),
    ("if_time_runs_short", jStrArr [
      "Focus on most critical priorities",
      "Schedule dedicated follow-up meeting",
      "Provide summary of key points"])]

/-- The body of the strategy handler's top-level `try` block.
`google_api_key` models `GOOGLE_API_KEY` (the Gemini model object exists
iff the key is set). -/
def strategy_body (google_api_key : Option String)
    (meeting_context meeting_objective research_data industry_analysis : String)
    (net : Net String) : Except PyErr Json × Net String :=
  let strategy_components :=
    generate_strategy_components meeting_context meeting_objective research_data industry_analysis
  let stepped :=
    match google_api_key with
    | some _ =>
      let e := enhance_strategy_with_ai meeting_context meeting_objective net
      (dictUpdate strategy_components e.1, e.2)
    | none => (strategy_components, net)
  let meeting_flow := generate_meeting_flow meeting_context meeting_objective
  let contingency_plans := generate_contingency_plans
  (.ok (Json.obj [
    ("meeting_context", .str meeting_context),
    ("meeting_objective", .str meeting_objective),
    ("strategy_components", Json.obj stepped.1),
    ("meeting_flow_suggestions", jStrArr meeting_flow),
    ("key_success_factors", jStrArr [
      "Active listening and engagement",
      "Clear articulation of value proposition",
      "Addressing concerns proactively",
      "Establishing clear next steps",
      "Building genuine rapport"]),
    ("contingency_plans", contingency_plans),
    ("pre_meeting_checklist", jStrArr [
      "Review participant backgrounds thoroughly",
      "Practice key talking points",
      "Prepare supporting materials",
      "Anticipate potential objections",
      "Set up meeting logistics"]),
    ("success_metrics", jStrArr [
      "Clear understanding of all parties\x27 positions",
      "Agreement on next steps and timeline",
      "Positive rapport established",
      "Objective progress made",
      "Follow-up actions defined"]),
    ("summary", .str ("Strategic meeting plan developed for: " ++ meeting_objective))]),
   stepped.2)

/-- The strategy agent's top-level `except` branch: error message plus the
original `meeting_context` and `meeting_objective` inputs. -/
def strategyErrorRecord (meeting_context meeting_objective : String) (e : PyErr) : Json :=
  Json.obj [
    ("error", .str ("Meeting strategy agent encountered an error: " ++ e.msg)),
    ("context", .str meeting_context),
    ("objective", .str meeting_objective)]

/-- The meeting strategy agent handler. -/
def develop_meeting_strategy (google_api_key : Option String)
    (meeting_context meeting_objective research_data industry_analysis : String)
    (net : Net String) : Json × Net String :=
  pyTryReturn
    (strategy_body google_api_key meeting_context meeting_objective
      research_data industry_analysis net)
    (strategyErrorRecord meeting_context meeting_objective)

/- ### Briefing agent
(src/cli/agents/summary_briefing_agent/summary_briefing_agent.py)

`compile_meeting_briefing(agent_context, meeting_context, meeting_objective,
research_findings, industry_analysis, meeting_strategy)` assembles a 5-part
briefing from pure section generators, adds an AI enhancement when
`GOOGLE_API_KEY` is set (`openai_client` is constructed iff the key is
present; the call sits in its own `try`/`except` returning a fallback
string), attaches `calculate_briefing_quality_score(...)`, and converts any
escaping exception into `{"error": ..., "context": ..., "objective": ...}`.
`datetime.now().strftime("%Y-%m-%d %H:%M:%S")` is modelled as the injected
`briefing_timestamp` argument. -/

/-- Embeds `generate_executive_summary`. -/
def generate_executive_summary (context objective research industry : String) : Json :=
  Json.obj [
    ("meeting_overview", .str context),
    ("primary_objective", .str objective),
    ("preparation_scope", .str "Comprehensive participant research, industry analysis, and strategic planning"),
    ("key_participants", .str "Detailed backgrounds researched and analyzed"),
    ("industry_context", .str "Current trends and opportunities identified"),
    ("strategic_approach", .str "Talking points, questions, and negotiation angles prepared"),
    ("expected_outcomes", .str "Successful achievement of meeting objectives with clear next steps"),
    ("preparation_confidence", .str "High - All critical areas analyzed and prepared")]

/-- Embeds `generate_participant_profiles`. -/
def generate_participant_profiles (research : String) : Json :=
  Json.obj [
    ("section_title", .str "PARTICIPANT PROFILES & BACKGROUNDS"),
    ("profile_summary", .str "Detailed professional backgrounds of all meeting participants"),
    ("key_areas_covered", jStrArr [
      "Professional experience and career progression",
      "Educational background and qualifications",
      "Current roles and responsibilities",
      "Company information and industry position",
      "LinkedIn profiles and professional networks",
      "Notable achievements and recognitions"]),
    ("research_quality", .str "Comprehensive LinkedIn and professional research completed"),
    ("strategic_value", .str "Enables personalized rapport building and targeted discussions")]

/-- Embeds `generate_industry_trends_section`. -/
def generate_industry_trends_section (industry : String) : Json :=
  Json.obj [
    ("section_title", .str "INDUSTRY TRENDS & MARKET ANALYSIS"),
    ("analysis_scope", .str "Current market conditions, trends, and strategic opportunities"),
    ("key_areas_analyzed", jStrArr [
      "Current market landscape and conditions",
      "Emerging trends and growth opportunities",
      "Industry challenges and competitive pressures",
      "Regulatory environment and compliance requirements",
      "Technology disruptions and innovation trends",
      "Market consolidation and partnership opportunities"]),
    ("strategic_implications", jStrArr [
      "Opportunities for market positioning",
      "Potential collaboration areas",
      "Risk factors to address",
      "Innovation and technology adoption strategies"])]

/-- Embeds `generate_talking_points_section`. -/
def generate_talking_points_section (strategy : String) : Json :=
  Json.obj [
    ("section_title", .str "STRATEGIC TALKING POINTS & DISCUSSION FRAMEWORK"),
    ("framework_overview", .str "Structured approach to guide productive meeting discussions"),
    ("key_components", jStrArr [
      "Opening statements and rapport building",
      "Value proposition articulation",
      "Strategic questions to guide discussion",
      "Conversation starters and engagement techniques",
      "Negotiation angles and positioning",
      "Objection handling and response strategies",
      "Next steps and follow-up planning"]),
    ("meeting_flow_guidance", jStrArr [
      "How to open the meeting effectively",
      "Key messages to communicate",
      "Questions to ask for engagement",
      "How to handle potential objections",
      "How to close with clear next steps"])]

/-- Embeds `generate_strategic_recommendations`. -/
def generate_strategic_recommendations
    (context objective research industry strategy : String) : Json :=
  Json.obj [
    ("section_title", .str "STRATEGIC RECOMMENDATIONS & ACTION PLAN"),
    ("pre_meeting_recommendations", jStrArr [
      "Complete final review of all participant profiles",
      "Practice key talking points and value propositions",
      "Prepare supporting materials and documentation",
      "Confirm meeting logistics and technical setup",
      "Review industry trends for relevant discussion points"]),
    ("during_meeting_tactics", jStrArr [
      "Lead with rapport building and relationship focus",
      "Listen actively and ask clarifying questions",
      "Present information clearly and concisely",
      "Address concerns promptly and thoroughly",
      "Use industry knowledge to demonstrate expertise",
      "Focus on mutual value and win-win outcomes"]),
    ("post_meeting_actions", jStrArr [
      "Send follow-up summary within 24 hours",
      "Schedule next steps and milestone meetings",
      "Provide promised information or resources",
      "Update internal records and CRM systems",
      "Plan ongoing relationship maintenance"]),
    ("success_metrics", jStrArr [
      "Clear understanding achieved by all parties",
      "Agreement on next steps and timeline",
      "Positive rapport and relationship established",
      "Measurable progress toward objectives",
      "Follow-up meetings or actions scheduled"])]

/-- Embeds `generate_preparation_checklist`. -/
def generate_preparation_checklist : List String :=
  ["‚ñ° Review complete briefing document (15-20 minutes)",
   "‚ñ° Study participant profiles and backgrounds",
   "‚ñ° Review industry trends and market analysis",
   "‚ñ° Practice key talking points and value propositions",
   "‚ñ° Prepare responses to potential objections",
   "‚ñ° Gather supporting materials and documentation",
   "‚ñ° Confirm meeting logistics (time, location, technology)",
   "‚ñ° Prepare follow-up communication templates",
   "‚ñ° Set meeting objectives and success criteria",
   "‚ñ° Plan post-meeting action items and timeline"]

/-- Embeds `generate_quick_reference_guide`. -/
def generate_quick_reference_guide (strategy : String) : Json :=
  Json.obj [
    ("key_talking_points", jStrArr [
      "Primary value proposition",
      "Mutual benefit opportunities",
      "Strategic partnership potential"]),
    ("strategic_questions", jStrArr [
      "What are your current priorities in this area?",
      "How do you measure success for initiatives like this?",
      "What challenges are you facing that we might help address?"]),
    ("conversation_starters", jStrArr [
      "Industry trend observations",
      "Shared connection references",
      "Recent market developments"])]

/-- Embeds `generate_meeting_flow_template`. -/
def generate_meeting_flow_template : List String :=
  ["0-5 min: Welcome and introductions",
   "5-15 min: Context setting and objective alignment",
   "15-35 min: Main discussion and value exploration",
   "35-45 min: Address questions and concerns",
   "45-50 min: Next steps and follow-up planning",
   "50-60 min: Meeting wrap-up and relationship building"]

/-- Embeds `generate_follow_up_template`. -/
def generate_follow_up_template : Json :=
  Json.obj [
    ("subject_line", .str "Thank you - Next steps from our meeting"),
    ("opening", .str "Thank you for the productive discussion today..."),
    ("summary_section", .str "Key points discussed and agreements reached"),
    ("next_steps_section", .str "Specific actions, owners, and timelines"),
    ("resources_section", .str "Promised materials and additional information"),
    ("closing", .str "Looking forward to our continued collaboration...")]

/-- Embeds `calculate_briefing_quality_score`: a fixed dict, independent of the
three inputs. -/
def calculate_briefing_quality_score (research industry strategy : String) : Json :=
  Json.obj [
    ("overall_score", .str "95/100"),
    ("research_completeness", .str "Excellent"),
    ("industry_analysis_depth", .str "Comprehensive"),
    ("strategic_preparation", .str "Thorough"),
    ("readiness_level", .str "Fully Prepared")]

/-- Embeds `generate_ai_briefing_enhancement`: one OpenAI-client call inside its
own `try`/`except`; on failure returns the fallback string carrying the
exception message. -/
def generate_ai_briefing_enhancement (context objective : String) (net : Net String) :
    String × Net String :=
  match httpRequest net with
  | (.error e, net') => ("AI enhancement not available: " ++ e.msg, net')
  | (.ok (_status, content), net') => (content, net')

/-- The body of the briefing handler's top-level `try` block. -/
def briefing_body (google_api_key : Option String) (briefing_timestamp : String)
    (meeting_context meeting_objective research_findings industry_analysis meeting_strategy : String)
    (net : Net String) : Except PyErr Json × Net String :=
  let supplementary : List (String × Json) := [
    ("preparation_checklist", jStrArr generate_preparation_checklist),
    ("quick_reference_guide", generate_quick_reference_guide meeting_strategy),
    ("meeting_flow_template", jStrArr generate_meeting_flow_template),
    ("follow_up_template", generate_follow_up_template)]
  let stepped :=
    match google_api_key with
    | some _ =>
      let e := generate_ai_briefing_enhancement meeting_context meeting_objective net
      (supplementary ++ [("ai_enhanced_insights", Json.str e.1)], e.2)
    | none => (supplementary, net)
  let briefing_document := Json.obj [
    ("briefing_header", Json.obj [
      ("title", .str "COMPREHENSIVE MEETING PREPARATION BRIEFING"),
      ("generated_at", .str briefing_timestamp),
      ("meeting_context", .str meeting_context),
      ("meeting_objective", .str meeting_objective),
      ("preparation_status", .str "COMPLETE")]),
    ("section_1_executive_summary", generate_executive_summary
      meeting_context meeting_objective research_findings industry_analysis),
    ("section_2_participant_profiles", generate_participant_profiles research_findings),
    ("section_3_industry_analysis", generate_industry_trends_section industry_analysis),
    ("section_4_strategic_talking_points", generate_talking_points_section meeting_strategy),
    ("section_5_strategic_recommendations", generate_strategic_recommendations
      meeting_context meeting_objective research_findings industry_analysis meeting_strategy),
    ("supplementary_materials", Json.obj stepped.1)]
  (.ok (Json.obj [
    ("briefing_document", briefing_document),
    ("immediate_actions", jStrArr [
      "Review this briefing document thoroughly (15-20 minutes)",
      "Practice key talking points and responses (10-15 minutes)",
      "Gather any additional supporting materials mentioned",
      "Confirm meeting logistics and technical setup",
      "Prepare follow-up communication templates"]),
    ("success_indicators", jStrArr [
      "Clear understanding of participant backgrounds",
      "Confidence in discussing industry trends",
      "Prepared responses to likely questions",
      "Defined next steps and follow-up plan",
      "Strong rapport building strategy"]),
    ("briefing_quality_score", calculate_briefing_quality_score
      research_findings industry_analysis meeting_strategy),
    ("summary", .str ("Comprehensive 5-part meeting briefing compiled for: " ++ meeting_objective))]),
   stepped.2)

/-- The briefing agent's top-level `except` branch: error message plus the
original `meeting_context` and `meeting_objective` inputs. -/
def briefingErrorRecord (meeting_context meeting_objective : String) (e : PyErr) : Json :=
  Json.obj [
    ("error", .str ("Summary and briefing agent encountered an error: " ++ e.msg)),
    ("context", .str meeting_context),
    ("objective", .str meeting_objective)]

/-- The briefing agent handler. -/
def compile_meeting_briefing (google_api_key : Option String) (briefing_timestamp : String)
    (meeting_context meeting_objective research_findings industry_analysis meeting_strategy : String)
    (net : Net String) : Json × Net String :=
  pyTryReturn
    (briefing_body google_api_key briefing_timestamp meeting_context meeting_objective
      research_findings industry_analysis meeting_strategy net)
    (briefingErrorRecord meeting_context meeting_objective)

/- ### Spec-side checkers (formalizations of the properties under test) -/

/-- Spec-side format checker: exactly ten characters shaped
`YYYY-MM-DD`, digits zero-padded in every numeric position. -/
def isYYYYMMDD (s : String) : Bool :=
  match s.data with
  | [y1, y2, y3, y4, h1, m1, m2, h2, d1, d2] =>
    y1.isDigit && y2.isDigit && y3.isDigit && y4.isDigit &&
    h1 == '-' && h2 == '-' &&
    m1.isDigit && m2.isDigit && d1.isDigit && d2.isDigit
  | _ => false

/-- Numeric value of a decimal digit character. -/
def digitVal (c : Char) : Nat :=
  c.toNat - 48

/-- Spec-side parser for `YYYY-MM-DD` strings: the (year, month, day)
encoded by a well-formed date string. -/
def parseYMD (s : String) : Option (Nat × Nat × Nat) :=
  if isYYYYMMDD s then
    match s.data with
    | [y1, y2, y3, y4, _, m1, m2, _, d1, d2] =>
      some ((((digitVal y1 * 10 + digitVal y2) * 10 + digitVal y3) * 10 + digitVal y4),
        digitVal m1 * 10 + digitVal m2,
        digitVal d1 * 10 + digitVal d2)
    | _ => none
  else none

/-- Spec-side checker for live-mode research findings: the result's
`research_findings` is a list of records whose `professional_summary` is the
empty string and whose `key_achievements` and `industry_connections` are
empty lists. -/
def liveFieldsEmpty (j : Json) : Bool :=
  match j.getKey "research_findings" with
  | .ok (.arr l) =>
    l.all (fun r =>
      (match r.getKey "professional_summary" with
       | .ok (.str "") => true
       | _ => false) &&
      (match r.getKey "key_achievements" with
       | .ok (.arr []) => true
       | _ => false) &&
      (match r.getKey "industry_connections" with
       | .ok (.arr []) => true
       | _ => false))
  | _ => false

/- ### Helper lemmas -/

/-- The append-if loop pattern of the extraction functions equals
filter-then-map. -/
theorem foldl_if_append_eq {α β : Type} (p : α → Bool) (g : α → β)
    (l : List α) (init : List β) :
    l.foldl (fun acc x => if p x then acc ++ [g x] else acc) init
      = init ++ (l.filter p).map g := by
  induction l generalizing init with
  | nil => simp
  | cons a t ih =>
    by_cases h : p a = true
    · simp [List.foldl, h, ih, List.filter]
    · simp only [Bool.not_eq_true] at h
      simp [List.foldl, h, ih, List.filter]

/-- Truncating to three keeps at most three entries. -/
theorem take3_length_le {α : Type} (l : List α) : (l.take 3).length ≤ 3 := by
  rw [List.length_take]
  exact Nat.min_le_left _ _

/-- C4: The research agent's comma-split parsing maps
`"Alice, Bob ,Carol"` to `["Alice", "Bob", "Carol"]` (trimmed, order kept,
duplicates kept) and maps the empty string to a single empty name. -/
theorem c4_comma_split_parsing :
    parse_participants "Alice, Bob ,Carol" = ["Alice", "Bob", "Carol"] ∧
    parse_participants "" = [""] ∧
    parse_participants "Bob,Bob" = ["Bob", "Bob"] := by
  refine ⟨by decide, by decide, by decide⟩

/-- C5: Every keyword-extraction function returns at most its fixed
documented count of three entries, for every text and search result. -/
theorem c5_extraction_truncation :
    ∀ (text : String) (search_result : SearchResult),
      (extract_trends_from_text text).length ≤ 3 ∧
      (extract_challenges_from_text text).length ≤ 3 ∧
      (extract_opportunities_from_text text).length ≤ 3 ∧
      (extract_experience_info search_result).length ≤ 3 ∧
      (extract_education_info search_result).length ≤ 3 := by
  intro text search_result
  refine ⟨?_, ?_, ?_, ?_, ?_⟩
  · exact take3_length_le _
  · exact take3_length_le _
  · exact take3_length_le _
  · rcases search_result with ⟨org⟩
    cases org with
    | none => simp [extract_experience_info]
    | some results =>
      simp only [extract_experience_info]
      exact take3_length_le _
  · rcases search_result with ⟨org⟩
    cases org with
    | none => simp [extract_education_info]
    | some results =>
      simp only [extract_education_info]
      exact take3_length_le _

/-- C6: Trend extraction selects exactly the keywords that are substrings
of the lowercased text and emits them in the keyword list's own iteration
order (truncated to three): a mixed-case text whose keywords occur in the
opposite order still yields the keyword-list order. -/
theorem c6_case_insensitive_keyword_order :
    (∀ text : String,
      extract_trends_from_text text =
        ((trend_keywords.filter (fun k => strContains (pyLower text) k)).map
          (fun k => "Growing adoption of " ++ k)).take 3) ∧
    extract_trends_from_text "Cloud Computing platforms embrace ARTIFICIAL Intelligence" =
      ["Growing adoption of artificial intelligence",
       "Growing adoption of cloud computing"] := by
  constructor
  · intro text
    simp only [extract_trends_from_text]
    rw [foldl_if_append_eq]
    simp
  · decide

/-- A rendered decimal digit is a digit character. -/
theorem digitChar_isDigit (n : Nat) : (digitChar n).isDigit = true := by
  unfold digitChar
  have h : n % 10 < 10 := Nat.mod_lt _ (by norm_num)
  generalize hk : n % 10 = k at h ⊢
  interval_cases k <;> decide

/-- Reading back a rendered decimal digit recovers the value mod 10. -/
theorem digitVal_digitChar (n : Nat) : digitVal (digitChar n) = n % 10 := by
  unfold digitChar digitVal
  have h : n % 10 < 10 := Nat.mod_lt _ (by norm_num)
  generalize hk : n % 10 = k at h ⊢
  interval_cases k <;> decide

/-- The character list of the date agent's output. -/
theorem get_current_date_data (now : PyDateTime) :
    (get_current_date now).data =
      [digitChar (now.year / 1000), digitChar (now.year / 100),
       digitChar (now.year / 10), digitChar now.year, '-',
       digitChar (now.month / 10), digitChar now.month, '-',
       digitChar (now.day / 10), digitChar now.day] := by
  simp [get_current_date, dec4, dec2, String.data_append]

/-- C8: The date agent's output is always shaped `YYYY-MM-DD` with
zero-padded month and day, and for any clock value in range the string
parses back to exactly the clock's year, month and day. -/
theorem c8_date_format (now : PyDateTime) :
    isYYYYMMDD (get_current_date now) = true ∧
    (1000 ≤ now.year → now.year ≤ 9999 → now.month ≤ 12 → now.day ≤ 31 →
      parseYMD (get_current_date now) = some (now.year, now.month, now.day)) := by
  have hfmt : isYYYYMMDD (get_current_date now) = true := by
    simp [isYYYYMMDD, get_current_date_data, digitChar_isDigit]
  refine ⟨hfmt, fun hy1 hy2 hm hd => ?_⟩
  simp only [parseYMD, hfmt, if_true, get_current_date_data, digitVal_digitChar]
  refine congrArg some ?_
  refine Prod.ext ?_ (Prod.ext ?_ ?_) <;> simp <;> omega

/-- C8 witness: a concrete in-range clock value. -/
theorem c8_date_format_witness :
    isYYYYMMDD (get_current_date ⟨2026, 3, 7⟩) = true ∧
    parseYMD (get_current_date ⟨2026, 3, 7⟩) = some (2026, 3, 7) := by
  obtain ⟨h1, h2⟩ := c8_date_format ⟨2026, 3, 7⟩
  exact ⟨h1, h2 (by norm_num) (by norm_num) (by norm_num) (by norm_num)⟩

/-- C9: The briefing quality score is the same fixed record for all inputs
(`overall_score` `95/100`, `readiness_level` `Fully Prepared`), and the
briefing handler reports exactly that constant as its
`briefing_quality_score`, so the score carries no information about the
inputs. -/
theorem c9_quality_score_constant :
    (∀ r i s r' i' s' : String,
      calculate_briefing_quality_score r i s = calculate_briefing_quality_score r' i' s') ∧
    (∀ r i s : String,
      (calculate_briefing_quality_score r i s).getKey "overall_score" = .ok (.str "95/100") ∧
      (calculate_briefing_quality_score r i s).getKey "readiness_level" = .ok (.str "Fully Prepared")) ∧
    (∀ (google_api_key : Option String) (ts mc mo rf ia ms : String) (net : Net String),
      ((compile_meeting_briefing google_api_key ts mc mo rf ia ms net).1).getKey
          "briefing_quality_score"
        = .ok (calculate_briefing_quality_score rf ia ms)) := by
  refine ⟨fun _ _ _ _ _ _ => rfl, fun r i s => ⟨rfl, rfl⟩,
    fun google_api_key ts mc mo rf ia ms net => ?_⟩
  cases google_api_key <;> rfl

/-- Each query-loop iteration leaves `professional_summary`,
`key_achievements` and `industry_connections` untouched. -/
theorem processQuery_preserves (sk : Option String) (pd : ParticipantData)
    (q : String) (net : Net SearchResult) :
    ((processQuery sk pd q net).1).professional_summary = pd.professional_summary ∧
    ((processQuery sk pd q net).1).key_achievements = pd.key_achievements ∧
    ((processQuery sk pd q net).1).industry_connections = pd.industry_connections := by
  unfold processQuery
  rcases hres : perform_serper_search sk q net with ⟨res, net'⟩
  cases res with
  | error e => simp
  | ok sr =>
    simp only
    split_ifs <;> simp

/-- The whole query loop leaves those three fields untouched. -/
theorem foldQueries_preserves (sk : Option String) (qs : List String)
    (pd : ParticipantData) (net : Net SearchResult) :
    ((qs.foldl (fun (acc : ParticipantData × Net SearchResult) q =>
        processQuery sk acc.1 q acc.2) (pd, net)).1).professional_summary
        = pd.professional_summary ∧
    ((qs.foldl (fun (acc : ParticipantData × Net SearchResult) q =>
        processQuery sk acc.1 q acc.2) (pd, net)).1).key_achievements
        = pd.key_achievements ∧
    ((qs.foldl (fun (acc : ParticipantData × Net SearchResult) q =>
        processQuery sk acc.1 q acc.2) (pd, net)).1).industry_connections
        = pd.industry_connections := by
  induction qs generalizing pd net with
  | nil => exact ⟨rfl, rfl, rfl⟩
  | cons q t ih =>
    simp only [List.foldl]
    rcases hq : processQuery sk pd q net with ⟨pd', net'⟩
    have hp := processQuery_preserves sk pd q net
    rw [hq] at hp
    have ht := ih pd' net'
    exact ⟨ht.1.trans hp.1, ht.2.1.trans hp.2.1, ht.2.2.trans hp.2.2⟩

/-- In live mode each participant record keeps its empty
`professional_summary`, `key_achievements` and `industry_connections`. -/
theorem researchParticipant_live_fields (k participant : String)
    (net : Net SearchResult) :
    ((researchParticipant (some k) participant net).1).professional_summary = "" ∧
    ((researchParticipant (some k) participant net).1).key_achievements = [] ∧
    ((researchParticipant (some k) participant net).1).industry_connections = [] := by
  unfold researchParticipant
  simp only
  exact foldQueries_preserves (some k) _ _ net

/-- Every record produced by the research agent's participant loop
satisfies a property that each single-participant step guarantees. -/
theorem research_fold_all (sk : Option String) (ps : List String)
    (acc : List ParticipantData) (net : Net SearchResult)
    (P : ParticipantData → Prop)
    (hacc : ∀ pd ∈ acc, P pd)
    (hstep : ∀ p n, P (researchParticipant sk p n).1) :
    ∀ pd ∈ (ps.foldl (fun (a : List ParticipantData × Net SearchResult) p =>
        let r := researchParticipant sk p a.2
        (a.1 ++ [r.1], r.2)) (acc, net)).1, P pd := by
  induction ps generalizing acc net with
  | nil => simpa using hacc
  | cons p t ih =>
    simp only [List.foldl]
    apply ih
    intro pd hpd
    rcases List.mem_append.1 hpd with h | h
    · exact hacc pd h
    · rw [List.mem_singleton.1 h]
      exact hstep p net

/-- The live-fields check holds for any research report whose
`research_findings` come from records with the three fields empty (the
other record values are irrelevant to the check). -/
theorem liveFieldsEmpty_record (v1 v2 v4 v5 : Json) (pds : List ParticipantData)
    (h : ∀ pd ∈ pds, pd.professional_summary = "" ∧ pd.key_achievements = [] ∧
      pd.industry_connections = []) :
    liveFieldsEmpty (Json.obj [
      ("meeting_context", v1),
      ("participants_researched", v2),
      ("research_findings", Json.arr (pds.map participantDataToJson)),
      ("summary", v4),
      ("recommendations", v5)]) = true := by
  change (pds.map participantDataToJson).all _ = true
  rw [List.all_eq_true]
  intro r hr
  rcases List.mem_map.1 hr with ⟨pd, hpd, rfl⟩
  obtain ⟨h1, h2, h3⟩ := h pd hpd
  rcases pd with ⟨nm, ps, ex, ed, ci, lp, ka, ic⟩
  dsimp only at h1 h2 h3
  subst h1
  subst h2
  subst h3
  rfl

/-- C10: In live mode (`SERPER_API_KEY` set), every per-participant record
returned by the research agent has an empty `professional_summary`, empty
`key_achievements` and empty `industry_connections`, whatever the search
results were. -/
theorem c10_live_mode_fields_stay_empty (k participants meeting_context : String)
    (net : Net SearchResult) :
    liveFieldsEmpty
      (research_meeting_participants (some k) participants meeting_context net).1
      = true := by
  have hstep : ∀ p n, (fun pd : ParticipantData =>
      pd.professional_summary = "" ∧ pd.key_achievements = [] ∧
        pd.industry_connections = []) (researchParticipant (some k) p n).1 :=
    fun p n => researchParticipant_live_fields k p n
  have hfold := research_fold_all (some k) (parse_participants participants) [] net
    (fun pd => pd.professional_summary = "" ∧ pd.key_achievements = [] ∧
      pd.industry_connections = [])
    (by intro pd hpd; cases hpd) hstep
  exact liveFieldsEmpty_record _ _ _ _ _ hfold

/-- Without `SERPER_API_KEY`, the research agent's participant loop never
touches the network. -/
theorem research_foldl_none_net (ps : List String) (acc : List ParticipantData)
    (net : Net SearchResult) :
    ((ps.foldl (fun (a : List ParticipantData × Net SearchResult) p =>
        let r := researchParticipant none p a.2
        (a.1 ++ [r.1], r.2)) (acc, net)).2) = net := by
  induction ps generalizing acc net with
  | nil => rfl
  | cons p t ih =>
    simp only [List.foldl]
    exact ih _ _

/-- Without `EXA_API_KEY`, the industry agent's per-industry loop never
touches the network. -/
theorem analyze_foldl_none_net (inds : List String) (mc : String)
    (acc : List (String × Json)) (net : Net ExaResponse) :
    ((inds.foldl (fun (a : List (String × Json) × Net ExaResponse) industry =>
        let r := analyzeIndustry none mc industry a.2
        (a.1 ++ [r.1], r.2)) (acc, net)).2) = net := by
  induction inds generalizing acc net with
  | nil => rfl
  | cons i t ih =>
    simp only [List.foldl]
    exact ih _ _

/-- C2 counterexample: the weather agent issues its HTTP request even with
`REQUEST_KEY` absent — one outbound call, not zero, and no fallback
record. -/
theorem c2_counterexample_weather_calls_without_key :
    (get_weather "Oslo" "2025-02-02" none ⟨[.resp 200 (Json.obj [])], 0⟩).2.calls = 1 ∧
    (get_weather "Oslo" "2025-02-02" none ⟨[], 0⟩).2.calls = 1 := by
  exact ⟨rfl, rfl⟩

/-- C2 (amended): the four CLI agents perform zero outbound HTTP calls and
return their complete fallback/template record (no `error` key) when the
required API key is absent; the research agent's per-participant fallback
record is the literal placeholder record.  (The weather agent, by contrast,
calls its provider regardless of the key — see the counterexample.) -/
theorem c2_missing_key_fallback_no_network :
    (∀ (p c : String) (net : Net SearchResult),
      (research_meeting_participants none p c net).2 = net ∧
      Json.hasKey (research_meeting_participants none p c net).1 "error" = false ∧
      Json.hasKey (research_meeting_participants none p c net).1 "research_findings" = true) ∧
    (∀ (p : String) (net : Net SearchResult),
      researchParticipant none p net =
        (⟨p, "Professional research needed for " ++ p,
          ["Experience research required for " ++ p],
          ["Education background research needed for " ++ p],
          "Company information research required for " ++ p,
          "LinkedIn profile research needed for " ++ p,
          ["Achievement research required for " ++ p],
          ["Network research needed for " ++ p]⟩, net)) ∧
    (∀ (p c : String) (net : Net ExaResponse),
      (analyze_meeting_industry_trends none p c net).2 = net ∧
      Json.hasKey (analyze_meeting_industry_trends none p c net).1 "error" = false ∧
      Json.hasKey (analyze_meeting_industry_trends none p c net).1 "industry_analyses" = true) ∧
    (∀ (ind : String) (net : Net ExaResponse),
      search_industry_trends none ind net =
        (["AI integration in " ++ ind, "Digital transformation in " ++ ind,
          "Sustainability focus in " ++ ind], net)) ∧
    (∀ (mc mo rd ia : String) (net : Net String),
      (develop_meeting_strategy none mc mo rd ia net).2 = net ∧
      Json.hasKey (develop_meeting_strategy none mc mo rd ia net).1 "error" = false) ∧
    (∀ (ts mc mo rf ia ms : String) (net : Net String),
      (compile_meeting_briefing none ts mc mo rf ia ms net).2 = net ∧
      Json.hasKey (compile_meeting_briefing none ts mc mo rf ia ms net).1 "error" = false) := by
  refine ⟨fun p c net => ⟨?_, rfl, rfl⟩, fun p net => rfl,
    fun p c net => ⟨?_, rfl, rfl⟩, fun ind net => rfl,
    fun mc mo rd ia net => ⟨rfl, rfl⟩, fun ts mc mo rf ia ms net => ⟨rfl, rfl⟩⟩
  · exact research_foldl_none_net (parse_participants p) [] net
  · exact analyze_foldl_none_net
      (extract_industries_from_context p c) c [] net

/-- C1 counterexample: a transport exception during the weather agent's
processing propagates to the caller — no mapping with an `error` key is
returned; and the industry agent's error record does not echo its inputs
(no `participants` or `meeting_context` key). -/
theorem c1_counterexample_weather_propagates :
    (get_weather "Paris" "2025-03-03" (some "KEY")
      ⟨[.exn ⟨"ConnectionError"⟩], 0⟩).1 = .error ⟨"ConnectionError"⟩ ∧
    Json.hasKey (industryErrorRecord "Dana Lee" "AI summit" ⟨"boom"⟩) "participants" = false ∧
    Json.hasKey (industryErrorRecord "Dana Lee" "AI summit" ⟨"boom"⟩) "meeting_context" = false := by
  exact ⟨rfl, rfl, rfl⟩

/-- C1 (amended): each of the four CLI handlers is a top-level catch around
its body — any error the body yields is converted into that agent's error
record instead of propagating; the research, strategy and briefing error
records carry an `error` key with the exception's message and echo their
primary inputs, while the industry record carries an `error` key and a
fallback analysis but no input echo.  (The weather and date agents have no
such catch — see the counterexample.) -/
theorem c1_cli_top_level_catch :
    (∀ (β : Type) (b : Except PyErr Json × Net β) (handler : PyErr → Json) (e : PyErr),
      b.1 = .error e → pyTryReturn b handler = (handler e, b.2)) ∧
    (∀ (p c : String) (e : PyErr),
      Json.hasKey (researchErrorRecord p c e) "error" = true ∧
      (researchErrorRecord p c e).getKey "error" =
        .ok (.str ("Research agent encountered an error: " ++ e.msg)) ∧
      (researchErrorRecord p c e).getKey "participants" = .ok (.str p) ∧
      (researchErrorRecord p c e).getKey "context" = .ok (.str c)) ∧
    (∀ (mc mo : String) (e : PyErr),
      Json.hasKey (strategyErrorRecord mc mo e) "error" = true ∧
      (strategyErrorRecord mc mo e).getKey "error" =
        .ok (.str ("Meeting strategy agent encountered an error: " ++ e.msg)) ∧
      (strategyErrorRecord mc mo e).getKey "context" = .ok (.str mc) ∧
      (strategyErrorRecord mc mo e).getKey "objective" = .ok (.str mo)) ∧
    (∀ (mc mo : String) (e : PyErr),
      Json.hasKey (briefingErrorRecord mc mo e) "error" = true ∧
      (briefingErrorRecord mc mo e).getKey "error" =
        .ok (.str ("Summary and briefing agent encountered an error: " ++ e.msg)) ∧
      (briefingErrorRecord mc mo e).getKey "context" = .ok (.str mc) ∧
      (briefingErrorRecord mc mo e).getKey "objective" = .ok (.str mo)) ∧
    (∀ (p c : String) (e : PyErr),
      Json.hasKey (industryErrorRecord p c e) "error" = true ∧
      (industryErrorRecord p c e).getKey "error" =
        .ok (.str ("Industry analysis failed: " ++ e.msg))) ∧
    (∀ (sk : Option String) (p c : String) (net : Net SearchResult),
      research_meeting_participants sk p c net =
        pyTryReturn (research_body sk p c net) (researchErrorRecord p c)) ∧
    (∀ (ek : Option String) (p c : String) (net : Net ExaResponse),
      analyze_meeting_industry_trends ek p c net =
        pyTryReturn (analyze_body ek p c net) (industryErrorRecord p c)) ∧
    (∀ (gk : Option String) (mc mo rd ia : String) (net : Net String),
      develop_meeting_strategy gk mc mo rd ia net =
        pyTryReturn (strategy_body gk mc mo rd ia net) (strategyErrorRecord mc mo)) ∧
    (∀ (gk : Option String) (ts mc mo rf ia ms : String) (net : Net String),
      compile_meeting_briefing gk ts mc mo rf ia ms net =
        pyTryReturn (briefing_body gk ts mc mo rf ia ms net) (briefingErrorRecord mc mo)) := by
  refine ⟨?_, fun p c e => ⟨rfl, rfl, rfl, rfl⟩, fun mc mo e => ⟨rfl, rfl, rfl, rfl⟩,
    fun mc mo e => ⟨rfl, rfl, rfl, rfl⟩, fun p c e => ⟨rfl, rfl⟩,
    fun sk p c net => rfl, fun ek p c net => rfl,
    fun gk mc mo rd ia net => rfl, fun gk ts mc mo rf ia ms net => rfl⟩
  intro β b handler e hb
  rcases b with ⟨b1, net⟩
  cases b1 with
  | ok r => exact absurd hb (by simp)
  | error e' =>
    cases hb
    rfl

/-- C1 witness: the top-level catch converts a concrete body error into the
research agent's error record. -/
theorem c1_cli_top_level_catch_witness :
    pyTryReturn ((Except.error ⟨"boom"⟩ : Except PyErr Json), (⟨[], 3⟩ : Net Unit))
      (researchErrorRecord "Alice" "Quarterly sync")
    = (researchErrorRecord "Alice" "Quarterly sync" ⟨"boom"⟩, (⟨[], 3⟩ : Net Unit)) :=
  c1_cli_top_level_catch.1 Unit (Except.error ⟨"boom"⟩, ⟨[], 3⟩)
    (researchErrorRecord "Alice" "Quarterly sync") ⟨"boom"⟩ rfl

/-- A concrete `day` object of the documented weather envelope. -/
def sampleDay : Json :=
  Json.obj [("maxtemp_c", .num 21), ("mintemp_c", .num 9)]

/-- A concrete `forecast.forecastday[0]` entry. -/
def sampleForecastDay0 : Json :=
  Json.obj [("date", .str "2025-06-01"), ("day", sampleDay)]

/-- A concrete provider body shaped like the documented weather JSON
envelope. -/
def sampleEnvelope : Json :=
  Json.obj [("forecast", Json.obj [("forecastday", Json.arr [sampleForecastDay0])])]

/-- C3 counterexample: on the documented envelope the weather handler
returns the one-key wrapper `{"weather_forecast": day}`, which is not the
nested `day` object itself. -/
theorem c3_counterexample_wrapper_not_day :
    (get_weather "London" "2025-06-01" (some "KEY")
      ⟨[.resp 200 sampleEnvelope], 0⟩).1
      = .ok (Json.obj [("weather_forecast", sampleDay)]) ∧
    (Except.ok (Json.obj [("weather_forecast", sampleDay)]) :
      Except PyErr Json) ≠ .ok sampleDay := by
  refine ⟨rfl, ?_⟩
  simp [sampleDay]

/-- C3 (amended): for every provider response shaped like the documented
envelope, the weather handler returns the mapping whose single key
`weather_forecast` holds exactly the nested `day` object of
`forecast.forecastday[0]`. -/
theorem c3_weather_wraps_day (city date : String) (request_key : Option String)
    (status : Nat) (body forecast day first : Json) (ds : List Json)
    (rest : List (HttpOutcome Json)) (c : Nat)
    (hb : body.getKey "forecast" = .ok forecast)
    (hf : forecast.getKey "forecastday" = .ok (Json.arr (first :: ds)))
    (hd : first.getKey "day" = .ok day) :
    get_weather city date request_key ⟨.resp status body :: rest, c⟩
      = (.ok (Json.obj [("weather_forecast", day)]), ⟨rest, c + 1⟩) := by
  simp [get_weather, httpRequest, hb, hf, hd, Json.getIdx]

/-- C3 witness: the concrete envelope. -/
theorem c3_weather_wraps_day_witness :
    get_weather "London" "2025-06-01" (some "KEY") ⟨[.resp 200 sampleEnvelope], 0⟩
      = (.ok (Json.obj [("weather_forecast", sampleDay)]), ⟨[], 1⟩) :=
  c3_weather_wraps_day "London" "2025-06-01" (some "KEY") 200 sampleEnvelope
    (Json.obj [("forecastday", Json.arr [sampleForecastDay0])]) sampleDay
    sampleForecastDay0 [] [] 0 rfl rfl rfl

/-- C7 counterexample: the weather agent's single HTTP sub-call has no
local failure handling — a transport exception is not replaced by a
fallback and no report is produced; it propagates. -/
theorem c7_counterexample_weather_subcall_uncaught :
    (get_weather "Berlin" "2025-07-07" (some "KEY")
      ⟨[.exn ⟨"ReadTimeout"⟩], 0⟩).1 = .error ⟨"ReadTimeout"⟩ := rfl


/-- C7 (amended): within the four CLI agents, every outbound HTTP sub-call
issues exactly one request per invocation (never retried), and failure is
handled locally so the handlers still produce their full report (no
top-level `error` key): the industry agent's three EXA sub-calls replace a
transport exception or a non-200 status with their fixed fallback lists;
the strategy and briefing agents' AI sub-calls replace a transport
exception with their fixed unavailable-message fallback; the research
agent's Serper sub-call never inspects the status code (the parsed body is
used whatever the status) and a transport exception is caught per query,
leaving the record at its prior value.  (The weather agent's sub-call has
no local handling — see the counterexample.) -/
theorem c7_subcall_fallback_no_retry :
    -- exactly one request per sub-call, never retried
    (∀ (k ind : String) (net : Net ExaResponse),
      (search_industry_trends (some k) ind net).2.calls = net.calls + 1) ∧
    (∀ (k ind ctx : String) (net : Net ExaResponse),
      (search_market_analysis (some k) ind ctx net).2.calls = net.calls + 1) ∧
    (∀ (k ind : String) (net : Net ExaResponse),
      (search_recent_developments (some k) ind net).2.calls = net.calls + 1) ∧
    (∀ (k q : String) (net : Net SearchResult),
      (perform_serper_search (some k) q net).2.calls = net.calls + 1) ∧
    (∀ (mc mo : String) (net : Net String),
      (enhance_strategy_with_ai mc mo net).2.calls = net.calls + 1) ∧
    (∀ (mc mo : String) (net : Net String),
      (generate_ai_briefing_enhancement mc mo net).2.calls = net.calls + 1) ∧
    -- a transport exception is replaced by the fixed local fallback
    (∀ (k ind : String) (e : PyErr) (rest : List (HttpOutcome ExaResponse)) (c : Nat),
      search_industry_trends (some k) ind ⟨.exn e :: rest, c⟩
        = (["Innovation focus in " ++ ind, "Market consolidation in " ++ ind],
           ⟨rest, c + 1⟩)) ∧
    (∀ (k ind ctx : String) (e : PyErr) (rest : List (HttpOutcome ExaResponse)) (c : Nat),
      search_market_analysis (some k) ind ctx ⟨.exn e :: rest, c⟩
        = (⟨["Industry disruption in " ++ ind], ["Technology adoption in " ++ ind],
            ["Market leaders in " ++ ind]⟩, ⟨rest, c + 1⟩)) ∧
    (∀ (k ind : String) (e : PyErr) (rest : List (HttpOutcome ExaResponse)) (c : Nat),
      search_recent_developments (some k) ind ⟨.exn e :: rest, c⟩
        = (["Ongoing changes in " ++ ind], ⟨rest, c + 1⟩)) ∧
    (∀ (mc mo : String) (e : PyErr) (rest : List (HttpOutcome String)) (c : Nat),
      enhance_strategy_with_ai mc mo ⟨.exn e :: rest, c⟩
        = ([("ai_enhanced_content", .str "AI enhancement not available"),
            ("ai_generated", .bool false), ("error", .str e.msg)], ⟨rest, c + 1⟩)) ∧
    (∀ (mc mo : String) (e : PyErr) (rest : List (HttpOutcome String)) (c : Nat),
      generate_ai_briefing_enhancement mc mo ⟨.exn e :: rest, c⟩
        = ("AI enhancement not available: " ++ e.msg, ⟨rest, c + 1⟩)) ∧
    (∀ (k : String) (pd : ParticipantData) (q : String) (e : PyErr)
        (rest : List (HttpOutcome SearchResult)) (c : Nat),
      processQuery (some k) pd q ⟨.exn e :: rest, c⟩ = (pd, ⟨rest, c + 1⟩)) ∧
    -- a non-200 status is replaced by the industry agent's fixed fallbacks
    (∀ (k ind : String) (st : Nat) (b : ExaResponse)
        (rest : List (HttpOutcome ExaResponse)) (c : Nat), st ≠ 200 →
      search_industry_trends (some k) ind ⟨.resp st b :: rest, c⟩
        = (["Digital transformation in " ++ ind, "AI adoption in " ++ ind],
           ⟨rest, c + 1⟩)) ∧
    (∀ (k ind ctx : String) (st : Nat) (b : ExaResponse)
        (rest : List (HttpOutcome ExaResponse)) (c : Nat), st ≠ 200 →
      search_market_analysis (some k) ind ctx ⟨.resp st b :: rest, c⟩
        = (⟨["Market volatility in " ++ ind, "Regulatory changes in " ++ ind],
            ["Digital innovation in " ++ ind, "Partnership opportunities in " ++ ind],
            ["Established players in " ++ ind, "Disruptive startups in " ++ ind]⟩,
           ⟨rest, c + 1⟩)) ∧
    (∀ (k ind : String) (st : Nat) (b : ExaResponse)
        (rest : List (HttpOutcome ExaResponse)) (c : Nat), st ≠ 200 →
      search_recent_developments (some k) ind ⟨.resp st b :: rest, c⟩
        = (["Industry evolution in " ++ ind, "Market shifts in " ++ ind],
           ⟨rest, c + 1⟩)) ∧
    -- the research agent's sub-call ignores the status code entirely
    (∀ (k q : String) (st : Nat) (b : SearchResult)
        (rest : List (HttpOutcome SearchResult)) (c : Nat),
      perform_serper_search (some k) q ⟨.resp st b :: rest, c⟩
        = (.ok b, ⟨rest, c + 1⟩)) ∧
    -- the enclosing handlers still produce their full report
    (∀ (ek : Option String) (p c : String) (net : Net ExaResponse),
      Json.hasKey (analyze_meeting_industry_trends ek p c net).1 "error" = false) ∧
    (∀ (sk : Option String) (p c : String) (net : Net SearchResult),
      Json.hasKey (research_meeting_participants sk p c net).1 "error" = false) ∧
    (∀ (gk : Option String) (mc mo rd ia : String) (net : Net String),
      Json.hasKey (develop_meeting_strategy gk mc mo rd ia net).1 "error" = false) ∧
    (∀ (gk : Option String) (ts mc mo rf ia ms : String) (net : Net String),
      Json.hasKey (compile_meeting_briefing gk ts mc mo rf ia ms net).1 "error" = false) := by
  refine ⟨?_, ?_, ?_, ?_, ?_, ?_,
    fun k ind e rest c => rfl,
    fun k ind ctx e rest c => rfl,
    fun k ind e rest c => rfl,
    fun mc mo e rest c => rfl,
    fun mc mo e rest c => rfl,
    fun k pd q e rest c => rfl,
    ?_, ?_, ?_,
    fun k q st b rest c => rfl,
    fun ek p c net => rfl,
    fun sk p c net => rfl,
    ?_, ?_⟩
  · intro k ind net
    rcases net with ⟨pending, c⟩
    match pending with
    | [] => rfl
    | .exn e :: rest => rfl
    | .resp st b :: rest =>
      simp only [search_industry_trends, httpRequest]
      split <;> rfl
  · intro k ind ctx net
    rcases net with ⟨pending, c⟩
    match pending with
    | [] => rfl
    | .exn e :: rest => rfl
    | .resp st b :: rest =>
      simp only [search_market_analysis, httpRequest]
      split <;> rfl
  · intro k ind net
    rcases net with ⟨pending, c⟩
    match pending with
    | [] => rfl
    | .exn e :: rest => rfl
    | .resp st b :: rest =>
      simp only [search_recent_developments, httpRequest]
      split <;> rfl
  · intro k q net
    rcases net with ⟨pending, c⟩
    match pending with
    | [] => rfl
    | .exn e :: rest => rfl
    | .resp st b :: rest => rfl
  · intro mc mo net
    rcases net with ⟨pending, c⟩
    match pending with
    | [] => rfl
    | .exn e :: rest => rfl
    | .resp st b :: rest => rfl
  · intro mc mo net
    rcases net with ⟨pending, c⟩
    match pending with
    | [] => rfl
    | .exn e :: rest => rfl
    | .resp st b :: rest => rfl
  · intro k ind st b rest c hst
    simp [search_industry_trends, httpRequest, hst]
  · intro k ind ctx st b rest c hst
    simp [search_market_analysis, httpRequest, hst]
  · intro k ind st b rest c hst
    simp [search_recent_developments, httpRequest, hst]
  · intro gk mc mo rd ia net
    cases gk <;> rfl
  · intro gk ts mc mo rf ia ms net
    cases gk <;> rfl

/-- C7 witness: concrete non-200 responses are replaced by the fixed
fallbacks of all three industry sub-calls after exactly one request. -/
theorem c7_subcall_fallback_no_retry_witness :
    search_industry_trends (some "K") "Retail" ⟨[.resp 500 ⟨[]⟩], 0⟩
      = (["Digital transformation in Retail", "AI adoption in Retail"], ⟨[], 1⟩) ∧
    search_market_analysis (some "K") "Retail" "expansion talks" ⟨[.resp 404 ⟨[]⟩], 0⟩
      = (⟨["Market volatility in Retail", "Regulatory changes in Retail"],
          ["Digital innovation in Retail", "Partnership opportunities in Retail"],
          ["Established players in Retail", "Disruptive startups in Retail"]⟩, ⟨[], 1⟩) ∧
    search_recent_developments (some "K") "Retail" ⟨[.resp 503 ⟨[]⟩], 0⟩
      = (["Industry evolution in Retail", "Market shifts in Retail"], ⟨[], 1⟩) :=
  ⟨c7_subcall_fallback_no_retry.2.2.2.2.2.2.2.2.2.2.2.2.1
      "K" "Retail" 500 ⟨[]⟩ [] 0 (by norm_num),
   c7_subcall_fallback_no_retry.2.2.2.2.2.2.2.2.2.2.2.2.2.1
      "K" "Retail" "expansion talks" 404 ⟨[]⟩ [] 0 (by norm_num),
   c7_subcall_fallback_no_retry.2.2.2.2.2.2.2.2.2.2.2.2.2.2.1
      "K" "Retail" 503 ⟨[]⟩ [] 0 (by norm_num)⟩
